import Mathlib

/-!
Verification of the Lua macro shim in src/runtimes/lua/luawrap.h.

The repository fragment under verification is a thin C adapter exposing five
Lua C-API invocations as ordinary functions so a foreign-function bridge can
link against them: luawrap_pop, luawrap_pcall, luawrap_isfunction,
luawrap_tonumber and luawrap_tostring, each a one-line pass-through to the
corresponding engine primitive.

The Lua engine itself is an external dependency and is not part of the
sources, so the engine primitives (the value stack, lua_pop, lua_pcall,
lua_isfunction, lua_tonumber, lua_tostring, and the argument-push used by the
round-trip scenario) are modelled here from the specification text, which
describes their contracts in detail. The five wrapper functions themselves
are translated directly from the source header.
-/

set_option autoImplicit false

/-- Modelled from the spec: a tagged value on the engine value stack, one of
nil, boolean, number, string, function, table (userdata is omitted: no claim
mentions it). Numbers are modelled over the integers: every numeric value
appearing in the specification and the claims (2, 3, 5, 42, 0) is an exactly
representable small integer, so the float64 carrier of the engine is not
observable at this level. Function and table values carry an identifier;
the behaviour of a function is looked up in the interpreter state. -/
inductive LuaValue where
  | nil : LuaValue
  | boolean (b : Bool) : LuaValue
  | number (x : Int) : LuaValue
  | str (s : String) : LuaValue
  | function (fid : Nat) : LuaValue
  | table (tid : Nat) : LuaValue
deriving DecidableEq, Repr

/-- Modelled from the spec: the outcome of running a script function inside
the protected-call mechanism, either success with a sequence of result
values or a runtime error carrying a single error object. -/
inductive CallOutcome where
  | ok (results : List LuaValue) : CallOutcome
  | runtimeError (e : LuaValue) : CallOutcome
deriving DecidableEq, Repr

/-- Modelled from the spec: the single opaque, mutable interpreter state.
The value stack is a list of tagged values with the TOP of the stack at the
head of the list. The semantics of script functions is carried as an
environment mapping each function identifier to its behaviour on an
argument list. -/
structure LuaState where
  stack : List LuaValue
  funcs : Nat → List LuaValue → CallOutcome

/-- Current stack depth (the number of values on the value stack). -/
def LuaState.depth (st : LuaState) : Nat := st.stack.length

/-- Modelled from the spec: stack indices are positionally meaningful,
1-based from the bottom and negative from the top. Index `i` with
`1 <= i <= depth` addresses the i-th value from the bottom; index `i` with
`-depth <= i <= -1` addresses the (-i)-th value from the top; every other
index is out of range and addresses no value. -/
def stackAt (st : LuaState) (i : Int) : Option LuaValue :=
  if 0 < i ∧ i ≤ (st.depth : Int) then
    st.stack[(st.depth - i.toNat)]?
  else if 0 < -i ∧ -i ≤ (st.depth : Int) then
    st.stack[((-i).toNat - 1)]?
  else none

/-- Modelled from the spec: the engine primitive behind the Pop operation.
Removes the top `n` values from the stack. A count that exceeds the current
depth (or a negative count) underflows the engine stack, which the engine
leaves undefined; the undefined outcome is modelled as `none`. -/
def lua_pop (L : LuaState) (n : Int) : Option LuaState :=
  if 0 ≤ n ∧ n ≤ (L.depth : Int) then
    some { L with stack := L.stack.drop n.toNat }
  else none

/-- Modelled from the spec: invoking a callable value on an argument list.
A function value runs its behaviour from the function environment; invoking
any non-function value is a runtime error. -/
def luaCall (L : LuaState) (f : LuaValue) (args : List LuaValue) : CallOutcome :=
  match f with
  | .function fid => L.funcs fid args
  | _ => .runtimeError (.str "attempt to call a non-function value")

/-- Modelled from the spec: the engine rule adjusting the actual result
sequence of a call to the requested result count. A negative request (the
multiple-results marker) keeps all results; otherwise extra results are
discarded and missing results are padded with nil. -/
def adjustResults (rs : List LuaValue) (nresults : Int) : List LuaValue :=
  if nresults < 0 then rs
  else rs.take nresults.toNat ++ List.replicate (nresults.toNat - rs.length) LuaValue.nil

/-- Modelled from the spec: applying a message-handler function to the raw
error object of a failed protected call; the final error value is the first
result of the handler (nil when the handler returns nothing), or the error
the handler itself raised. -/
def applyHandler (L : LuaState) (hid : Nat) (e : LuaValue) : LuaValue :=
  match L.funcs hid [e] with
  | .ok rs => rs.headD .nil
  | .runtimeError e2 => e2

/-- Modelled from the spec: the engine protected-call primitive. The function
to be called sits beneath its `nargs` argument values on the stack (a stack
without such a slot, or a negative argument count, is an API misuse modelled
as `none`). On success the function and arguments are replaced by exactly
the requested number of results (padded with nil, extras discarded) and the
status 0 is returned. On a runtime error the function and arguments are
replaced by exactly one value, the error object, and the nonzero status 2 is
returned; when the `errfunc` stack index holds a handler function, the
handler is first invoked on the raw error object and its result becomes the
error value left on the stack. -/
def lua_pcall (L : LuaState) (nargs nresults errfunc : Int) :
    Option (Nat × LuaState) :=
  if nargs < 0 then none
  else
    match L.stack[nargs.toNat]? with
    | none => none
    | some f =>
      let rest := L.stack.drop (nargs.toNat + 1)
      match luaCall L f (L.stack.take nargs.toNat).reverse with
      | .ok rs =>
          some (0, { L with stack := (adjustResults rs nresults).reverse ++ rest })
      | .runtimeError e =>
          let efinal :=
            match stackAt L errfunc with
            | some (.function hid) => applyHandler L hid e
            | _ => e
          some (2, { L with stack := efinal :: rest })

/-- Modelled from the spec: whether the value at a stack position is a
function value; an out-of-range position holds no value and is not a
function. The position is inspected without mutating the stack. -/
def lua_isfunction (L : LuaState) (idx : Int) : Bool :=
  match stackAt L idx with
  | some (.function _) => true
  | _ => false

/-- Modelled from the spec: the engine conversion of a numeric string to a
number, restricted to the decimal natural literals that the specification
and the claims exercise. -/
def parseNatAux : List Char → Nat → Option Nat
  | [], acc => some acc
  | c :: cs, acc =>
      if c.isDigit then parseNatAux cs (acc * 10 + (c.toNat - 48)) else none

/-- Modelled from the spec: string-to-number coercion; `none` when the
string is not numeric. -/
def str2number (s : String) : Option Int :=
  match s.data with
  | [] => none
  | c :: cs => (parseNatAux (c :: cs) 0).map Int.ofNat

/-- Modelled from the spec: the engine primitive reading a stack slot
coerced to a number. A number is returned as is, a numeric string
auto-converts, and every other value (including an out-of-range slot)
yields the sentinel 0 rather than an error. -/
def lua_tonumber (L : LuaState) (idx : Int) : Int :=
  match stackAt L idx with
  | some (.number x) => x
  | some (.str s) => (str2number s).getD 0
  | _ => 0

/-- Modelled from the spec: the textual representation of a number value. -/
def number2str (x : Int) : String := toString x

/-- Modelled from the spec: the engine primitive reading a stack slot
coerced to its textual representation. Strings and numbers coerce; every
other value (nil, boolean, function, table) and every out-of-range slot has
no string coercion and yields the absent value `none` (the engine returns a
null pointer there, never a dangling one). -/
def lua_tostring (L : LuaState) (idx : Int) : Option String :=
  match stackAt L idx with
  | some (.str s) => some s
  | some (.number x) => some (number2str x)
  | _ => none

/-- Modelled from the spec: the PushArgument operation of the bridge, which
appends one value to the top of the stack; its sole side effect is stack
growth by one. Loading a chunk also ends by pushing the compiled function
value, so the same primitive models the stack effect of a successful Load. -/
def pushArgument (L : LuaState) (v : LuaValue) : LuaState :=
  { L with stack := v :: L.stack }

/-! The five wrapper functions, translated from src/runtimes/lua/luawrap.h.
Each wrapper body is exactly one invocation of the corresponding engine
primitive with the arguments forwarded unchanged. -/

/-- From the source: `static inline void luawrap_pop(lua_State *L, int n)
{ lua_pop(L, n); }`. -/
def luawrap_pop (L : LuaState) (n : Int) : Option LuaState :=
  lua_pop L n

/-- From the source: `static inline int luawrap_pcall(lua_State *L, int
nargs, int nresults, int errfunc) { return lua_pcall(L, nargs, nresults,
errfunc); }`. -/
def luawrap_pcall (L : LuaState) (nargs nresults errfunc : Int) :
    Option (Nat × LuaState) :=
  lua_pcall L nargs nresults errfunc

/-- From the source: `static inline int luawrap_isfunction(lua_State *L,
int idx) { return lua_isfunction(L, idx); }`. -/
def luawrap_isfunction (L : LuaState) (idx : Int) : Bool :=
  lua_isfunction L idx

/-- From the source: `static inline lua_Number luawrap_tonumber(lua_State
*L, int idx) { return lua_tonumber(L, idx); }`. -/
def luawrap_tonumber (L : LuaState) (idx : Int) : Int :=
  lua_tonumber L idx

/-- From the source: `static inline const char* luawrap_tostring(lua_State
*L, int idx) { return lua_tostring(L, idx); }`. -/
def luawrap_tostring (L : LuaState) (idx : Int) : Option String :=
  lua_tostring L idx

/-! Concrete script behaviours for the scenarios named by the specification. -/

/-- Modelled from the spec: the behaviour of the script function
`function add(a,b) return a+b end` from the round-trip scenario. Called on
two number arguments it returns their sum as its single result; on anything
else Lua arithmetic raises a runtime error. -/
def addSemantics : List LuaValue → CallOutcome
  | [.number a, .number b] => .ok [.number (a + b)]
  | _ => .runtimeError (.str "attempt to perform arithmetic on a non-number value")

/-- Script-function environment used by the concrete scenarios: identifier 0
is the `add` function from the round-trip scenario, identifier 1 a script
returning two values, identifier 2 a script raising a runtime error, and
identifier 3 a message handler that augments the error text (modelling
traceback augmentation). -/
def demoFuncs : Nat → List LuaValue → CallOutcome
  | 0, args => addSemantics args
  | 1, _ => .ok [.number 10, .number 20]
  | 2, _ => .runtimeError (.str "boom")
  | 3, args =>
      match args.headD .nil with
      | .str s => .ok [.str (s ++ " with traceback")]
      | v => .ok [v]
  | _, _ => .runtimeError .nil

/-- An interpreter state with the given stack and the demo environment. -/
def mkState (s : List LuaValue) : LuaState :=
  { stack := s, funcs := demoFuncs }

/-- Bridge-level failure named by the specification for the defensive Pop
check. -/
inductive BridgeError where
  | stackUnderflow : BridgeError
deriving DecidableEq, Repr

/-- Checked Pop following the words of the specification claim: the count is
compared against the current depth first, and an excessive count fails fast
with the StackUnderflowError instead of reaching the engine primitive. This
definition renders the claimed behaviour, for comparison with the wrapper
translated from the source. -/
def popChecked (L : LuaState) (n : Int) : Except BridgeError LuaState :=
  if (L.depth : Int) < n then .error .stackUnderflow
  else
    match lua_pop L n with
    | some L2 => .ok L2
    | none => .error .stackUnderflow

/-- Modelled from the spec: a bridge stack operation, either PushArgument of
one value or Pop of a count, together with the stack effect it declares. -/
inductive StackOp where
  | push (v : LuaValue) : StackOp
  | pop (n : Nat) : StackOp

/-- Declared stack growth or shrink of one operation: a push grows the stack
by exactly one, Pop(n) shrinks it by n. -/
def declaredDelta : StackOp → Int
  | .push _ => 1
  | .pop n => -(n : Int)

/-- Running one bridge stack operation; Pop goes through the wrapper
translated from the source. -/
def runOp (L : LuaState) : StackOp → Option LuaState
  | .push v => some (pushArgument L v)
  | .pop n => luawrap_pop L (n : Int)

/-- Running a sequence of bridge stack operations, failing if any single
operation fails. -/
def runOps (L : LuaState) : List StackOp → Option LuaState
  | [] => some L
  | op :: ops => (runOp L op).bind fun L2 => runOps L2 ops

/-! Helper lemmas about list indexing around a call frame and about the
result-adjustment rule. -/

theorem getElem?_append_cons (l r : List LuaValue) (x : LuaValue) :
    (l ++ x :: r)[l.length]? = some x := by
  induction l with
  | nil => simp
  | cons a l ih => simpa using ih

theorem take_append_eq (l r : List LuaValue) : (l ++ r).take l.length = l := by
  induction l with
  | nil => rfl
  | cons a l ih => simp [ih]

theorem drop_append_cons (l r : List LuaValue) (x : LuaValue) :
    (l ++ x :: r).drop (l.length + 1) = r := by
  induction l with
  | nil => rfl
  | cons a l ih => simp [ih]

theorem adjustResults_length (rs : List LuaValue) (n : Int) (hn : 0 ≤ n) :
    (adjustResults rs n).length = n.toNat := by
  unfold adjustResults
  rw [if_neg (by omega)]
  simp only [List.length_append, List.length_take, List.length_replicate]
  omega

theorem adjustResults_pad (rs : List LuaValue) (n : Int) (k : Nat)
    (h1 : rs.length ≤ k) (h2 : k < n.toNat) :
    (adjustResults rs n)[k]? = some LuaValue.nil := by
  unfold adjustResults
  rw [if_neg (by omega)]
  rw [List.getElem?_append_right (by simp only [List.length_take]; omega)]
  simp only [List.length_take, List.getElem?_replicate]
  rw [if_pos (by omega)]

theorem adjustResults_keep (rs : List LuaValue) (n : Int) (k : Nat)
    (h1 : k < rs.length) (h2 : k < n.toNat) :
    (adjustResults rs n)[k]? = rs[k]? := by
  unfold adjustResults
  rw [if_neg (by omega)]
  rw [List.getElem?_append_left (by simp only [List.length_take]; omega)]
  rw [List.getElem?_take_of_lt h2]

/-! Scratch validations of the model on the concrete scenarios. -/

example :
    luawrap_pcall (mkState [.function 1]) 0 3 0 =
      some (0, mkState [.nil, .number 20, .number 10]) := rfl

example :
    luawrap_pcall (mkState [.number 3, .number 2, .function 0]) 2 1 0 =
      some (0, mkState [.number 5]) := rfl

example :
    luawrap_pcall (mkState [.function 2, .function 3]) 0 0 1 =
      some (2, mkState [.str "boom with traceback", .function 3]) := rfl

example : luawrap_tonumber (mkState [.str "42"]) 1 = 42 := by decide

example : luawrap_tostring (mkState [.table 7]) 1 = none := rfl

example : luawrap_tostring (mkState [.table 7]) 5 = none := rfl

/-- Evaluation of the protected-call primitive on an explicit call frame:
a stack holding `nargs` argument values (top first) above a callee and an
untouched remainder. -/
theorem lua_pcall_frame (fs : Nat → List LuaValue → CallOutcome)
    (rargs : List LuaValue) (f : LuaValue) (rest : List LuaValue)
    (nresults errfunc : Int) :
    lua_pcall ⟨rargs ++ f :: rest, fs⟩ (rargs.length : Int) nresults errfunc =
      (match luaCall ⟨rargs ++ f :: rest, fs⟩ f rargs.reverse with
       | .ok rs => some (0, ⟨(adjustResults rs nresults).reverse ++ rest, fs⟩)
       | .runtimeError e =>
           some (2, ⟨(match stackAt ⟨rargs ++ f :: rest, fs⟩ errfunc with
                      | some (.function hid) =>
                          applyHandler ⟨rargs ++ f :: rest, fs⟩ hid e
                      | _ => e) :: rest, fs⟩)) := by
  have h0 : ¬ ((rargs.length : Int) < 0) := by omega
  have h1 : ((rargs.length : Int)).toNat = rargs.length := by omega
  unfold lua_pcall
  rw [if_neg h0, h1]
  rw [show (({ stack := rargs ++ f :: rest, funcs := fs } : LuaState)).stack =
        rargs ++ f :: rest from rfl]
  rw [getElem?_append_cons, take_append_eq, drop_append_cons]

/-- Helper: an index strictly above the current depth (or strictly below its
negation) is out of range and addresses no stack value. -/
theorem stackAt_out_of_range (L : LuaState) (idx : Int)
    (h : (L.depth : Int) < idx ∨ idx < -(L.depth : Int)) : stackAt L idx = none := by
  unfold stackAt
  rw [if_neg (by omega), if_neg (by omega)]

/-- Helper: the value just pushed is addressed by the top index -1. -/
theorem stackAt_top (L : LuaState) (v : LuaValue) :
    stackAt (pushArgument L v) (-1) = some v := by
  unfold stackAt pushArgument
  rw [if_neg (by omega),
    if_pos (by simp only [LuaState.depth, List.length_cons]; omega)]
  simp

/-! Claim theorems. -/

/-- C1: a successful ProtectedCall (luawrap_pcall) on a function beneath its
`numArgs` argument values replaces the function and arguments by exactly
`numResults` values: the stack becomes the adjusted result sequence above
the untouched remainder, its depth is exactly `numResults` plus the
remainder, and every requested slot beyond the actual results holds the
nil pad value (extra results beyond `numResults` are discarded by the
adjustment rule). -/
theorem pcall_success_leaves_nresults (L : LuaState) (rargs : List LuaValue)
    (f : LuaValue) (rest : List LuaValue) (nresults : Int) (rs : List LuaValue)
    (hstack : L.stack = rargs ++ f :: rest)
    (hok : luaCall L f rargs.reverse = .ok rs)
    (hnr : 0 ≤ nresults) :
    ∃ L2, luawrap_pcall L (rargs.length : Int) nresults 0 = some (0, L2) ∧
      L2.stack = (adjustResults rs nresults).reverse ++ rest ∧
      L2.depth = nresults.toNat + rest.length ∧
      ∀ k : Nat, rs.length ≤ k → k < nresults.toNat →
        (adjustResults rs nresults)[k]? = some LuaValue.nil := by
  obtain ⟨stk, fs⟩ := L
  have hs : stk = rargs ++ f :: rest := hstack
  subst hs
  refine ⟨⟨(adjustResults rs nresults).reverse ++ rest, fs⟩, ?_, rfl, ?_, ?_⟩
  · show lua_pcall _ _ _ _ = _
    rw [lua_pcall_frame, hok]
  · show ((adjustResults rs nresults).reverse ++ rest).length = _
    rw [List.length_append, List.length_reverse, adjustResults_length rs nresults hnr]
  · exact fun k hk1 hk2 => adjustResults_pad rs nresults k hk1 hk2

/-- C1 witness: the scenario of the specification, a script returning two
values called with `numResults = 3`, leaves exactly three values, the third
(topmost) being nil. -/
theorem pcall_success_leaves_nresults_witness :
    ∃ L2, luawrap_pcall (mkState [.function 1]) 0 3 0 = some (0, L2) ∧
      L2.stack = (adjustResults [.number 10, .number 20] 3).reverse ++ [] ∧
      L2.depth = (3 : Int).toNat + List.length ([] : List LuaValue) ∧
      ∀ k : Nat, List.length [LuaValue.number 10, LuaValue.number 20] ≤ k →
        k < (3 : Int).toNat →
        (adjustResults [.number 10, .number 20] 3)[k]? = some LuaValue.nil :=
  pcall_success_leaves_nresults (mkState [.function 1]) [] (.function 1) []
    3 [.number 10, .number 20] rfl rfl (by decide)

/-- C2: a ProtectedCall (luawrap_pcall) whose callee raises a runtime error
returns the nonzero RuntimeError status 2 (a data result, not a host-level
fault: the model returns normally) and leaves exactly one value, the error
object, above the untouched remainder; when the `errfunc` index holds a
handler function, the value left is the handler applied to the raw error
object. -/
theorem pcall_error_leaves_error (L : LuaState) (rargs : List LuaValue)
    (f : LuaValue) (rest : List LuaValue) (nresults errfunc : Int) (e : LuaValue)
    (hstack : L.stack = rargs ++ f :: rest)
    (herr : luaCall L f rargs.reverse = .runtimeError e) :
    ∃ status : Nat, ∃ L2,
      luawrap_pcall L (rargs.length : Int) nresults errfunc = some (status, L2) ∧
      status ≠ 0 ∧
      L2.depth = rest.length + 1 ∧
      (stackAt L errfunc = none → L2.stack = e :: rest) ∧
      (∀ hid, stackAt L errfunc = some (.function hid) →
        L2.stack = applyHandler L hid e :: rest) := by
  obtain ⟨stk, fs⟩ := L
  have hs : stk = rargs ++ f :: rest := hstack
  subst hs
  refine ⟨2, ⟨(match stackAt ⟨rargs ++ f :: rest, fs⟩ errfunc with
               | some (.function hid) => applyHandler ⟨rargs ++ f :: rest, fs⟩ hid e
               | _ => e) :: rest, fs⟩, ?_, by omega, ?_, ?_, ?_⟩
  · show lua_pcall _ _ _ _ = _
    rw [lua_pcall_frame, herr]
  · show (_ :: rest).length = rest.length + 1
    rw [List.length_cons]
  · intro hnone
    show (_ :: rest) = e :: rest
    rw [hnone]
  · intro hid hsome
    show (_ :: rest) = _ :: rest
    rw [hsome]

/-- C2 witness: the erroring script (identifier 2) called with the handler
function at stack index 1 as `errfunc` returns the nonzero status and
leaves exactly the handler-augmented error object above the remainder. -/
theorem pcall_error_leaves_error_witness :
    ∃ status : Nat, ∃ L2,
      luawrap_pcall (mkState [.function 2, .function 3]) 0 0 1 =
        some (status, L2) ∧
      status ≠ 0 ∧
      L2.depth = List.length [LuaValue.function 3] + 1 ∧
      (stackAt (mkState [.function 2, .function 3]) 1 = none →
        L2.stack = .str "boom" :: [.function 3]) ∧
      (∀ hid, stackAt (mkState [.function 2, .function 3]) 1 =
          some (.function hid) →
        L2.stack =
          applyHandler (mkState [.function 2, .function 3]) hid (.str "boom") ::
            [.function 3]) :=
  pcall_error_leaves_error (mkState [.function 2, .function 3]) []
    (.function 2) [.function 3] 0 1 (.str "boom") rfl rfl

/-- C3: the round-trip scenario. Starting from a state whose stack holds the
loaded `add` function, pushing the arguments 2 and 3 and invoking
ProtectedCall with `numArgs = 2` and `numResults = 1` succeeds with status
0, leaves exactly one value, and ReadNumber applied to the result slot
returns 5. -/
theorem roundtrip_add_yields_five :
    (luawrap_pcall
        (pushArgument (pushArgument (mkState [.function 0]) (.number 2))
          (.number 3)) 2 1 0).map
      (fun p => (p.1, p.2.depth, luawrap_tonumber p.2 (-1))) =
    some (0, 1, 5) := rfl

/-- C4: ReadNumber (luawrap_tonumber) returns a number slot as is, coerces
a numeric string per the conversion rule (so "42" yields 42), and returns
the sentinel 0 for a non-coercible slot such as a table, without any error
channel (the return type is the plain number). -/
theorem tonumber_coercion (L : LuaState) (idx : Int) :
    (∀ x, stackAt L idx = some (.number x) → luawrap_tonumber L idx = x) ∧
    (∀ s n, stackAt L idx = some (.str s) → str2number s = some n →
      luawrap_tonumber L idx = n) ∧
    (∀ tid, stackAt L idx = some (.table tid) → luawrap_tonumber L idx = 0) := by
  refine ⟨?_, ?_, ?_⟩
  · intro x h
    unfold luawrap_tonumber lua_tonumber
    rw [h]
  · intro s n h hp
    unfold luawrap_tonumber lua_tonumber
    rw [h]
    show (str2number s).getD 0 = n
    rw [hp]
    rfl
  · intro tid h
    unfold luawrap_tonumber lua_tonumber
    rw [h]

/-- C4 witness: on a stack holding the string "42" at index 1 and a table
at index 2, ReadNumber returns 42 and the sentinel 0 respectively. -/
theorem tonumber_coercion_witness :
    luawrap_tonumber (mkState [.table 7, .str "42"]) 1 = 42 ∧
    luawrap_tonumber (mkState [.table 7, .str "42"]) 2 = 0 :=
  ⟨(tonumber_coercion (mkState [.table 7, .str "42"]) 1).2.1 "42" 42
      (by decide) (by decide),
   (tonumber_coercion (mkState [.table 7, .str "42"]) 2).2.2 7 (by decide)⟩

/-- C5: ReadString (luawrap_tostring) returns the absent value `none` (never
a pointer, dangling or otherwise: the return type is an option) on every
out-of-range index and on every slot with no string coercion (table,
function); on a string or number slot it returns the textual
representation. -/
theorem tostring_absent_on_noncoercible (L : LuaState) (idx : Int) :
    (((L.depth : Int) < idx ∨ idx < -(L.depth : Int)) →
      luawrap_tostring L idx = none) ∧
    (stackAt L idx = none → luawrap_tostring L idx = none) ∧
    (∀ tid, stackAt L idx = some (.table tid) → luawrap_tostring L idx = none) ∧
    (∀ fid, stackAt L idx = some (.function fid) →
      luawrap_tostring L idx = none) ∧
    (∀ s, stackAt L idx = some (.str s) → luawrap_tostring L idx = some s) ∧
    (∀ x, stackAt L idx = some (.number x) →
      luawrap_tostring L idx = some (number2str x)) := by
  refine ⟨?_, ?_, ?_, ?_, ?_, ?_⟩
  · intro h
    unfold luawrap_tostring lua_tostring
    rw [stackAt_out_of_range L idx h]
  · intro h
    unfold luawrap_tostring lua_tostring
    rw [h]
  · intro tid h
    unfold luawrap_tostring lua_tostring
    rw [h]
  · intro fid h
    unfold luawrap_tostring lua_tostring
    rw [h]
  · intro s h
    unfold luawrap_tostring lua_tostring
    rw [h]
  · intro x h
    unfold luawrap_tostring lua_tostring
    rw [h]

/-- C5 witness: on a two-value stack, ReadString of the out-of-range index 5
is absent, and so are ReadString of the table slot and of the function
slot. -/
theorem tostring_absent_on_noncoercible_witness :
    luawrap_tostring (mkState [.function 9, .table 7]) 5 = none ∧
    luawrap_tostring (mkState [.function 9, .table 7]) 1 = none ∧
    luawrap_tostring (mkState [.function 9, .table 7]) 2 = none :=
  ⟨(tostring_absent_on_noncoercible (mkState [.function 9, .table 7]) 5).1
      (Or.inl (by decide)),
   (tostring_absent_on_noncoercible (mkState [.function 9, .table 7]) 1).2.2.1 7
      (by decide),
   (tostring_absent_on_noncoercible (mkState [.function 9, .table 7]) 2).2.2.2.1 9
      (by decide)⟩

/-- C6 counterexample: at the concrete input of an empty stack and n = 1
(a count exceeding the depth), the source wrapper luawrap_pop performs no
defensive check: it forwards the underflowing count to the engine primitive
unchanged (the two agree exactly), yielding the engine underflow outcome,
whereas the checked behaviour described by the claim fails fast with the
StackUnderflowError. -/
theorem pop_underflow_counterexample :
    (1 : Int) > ((mkState []).depth : Int) ∧
    luawrap_pop (mkState []) 1 = lua_pop (mkState []) 1 ∧
    lua_pop (mkState []) 1 = none ∧
    popChecked (mkState []) 1 = .error .stackUnderflow :=
  ⟨by decide, rfl, rfl, rfl⟩

/-- C6 amended: luawrap_pop performs no defensive depth check. For every
count exceeding the current depth it forwards the count unchanged to the
engine pop primitive, and the outcome is the engine underflow (modelled as
`none`), not a bridge-level StackUnderflowError. -/
theorem pop_underflow_passthrough (L : LuaState) (n : Int)
    (h : (L.depth : Int) < n) :
    luawrap_pop L n = lua_pop L n ∧ lua_pop L n = none := by
  refine ⟨rfl, ?_⟩
  unfold lua_pop
  rw [if_neg (by omega)]

/-- C6 amended witness: the empty stack with n = 1. -/
theorem pop_underflow_passthrough_witness :
    luawrap_pop (mkState []) 1 = lua_pop (mkState []) 1 ∧
    lua_pop (mkState []) 1 = none :=
  pop_underflow_passthrough (mkState []) 1 (by decide)

/-- C7: for every balanced sequence of push and Pop operations that runs to
completion, the net stack depth afterwards equals the depth before plus the
sum of each operation's declared growth or shrink. -/
theorem stack_balance (ops : List StackOp) (L L2 : LuaState)
    (h : runOps L ops = some L2) :
    (L2.depth : Int) = (L.depth : Int) + (ops.map declaredDelta).sum := by
  induction ops generalizing L with
  | nil =>
      unfold runOps at h
      cases h
      simp
  | cons op ops ih =>
      cases op with
      | push v =>
          simp only [runOps, runOp] at h
          rw [Option.some_bind] at h
          have hrec := ih (pushArgument L v) h
          have hd : ((pushArgument L v).depth : Int) = (L.depth : Int) + 1 := by
            simp [pushArgument, LuaState.depth]
          rw [List.map_cons, List.sum_cons]
          show (L2.depth : Int) = (L.depth : Int) + (1 + (ops.map declaredDelta).sum)
          omega
      | pop n =>
          simp only [runOps, runOp] at h
          cases hp : luawrap_pop L (n : Int) with
          | none => rw [hp, Option.none_bind] at h; cases h
          | some L1 =>
              rw [hp, Option.some_bind] at h
              have hrec := ih L1 h
              have hcond : 0 ≤ (n : Int) ∧ (n : Int) ≤ (L.depth : Int) := by
                by_contra hc
                unfold luawrap_pop lua_pop at hp
                rw [if_neg hc] at hp
                cases hp
              have hd : (L1.depth : Int) = (L.depth : Int) - (n : Int) := by
                have hc2 : (n : Int) ≤ (L.stack.length : Int) := hcond.2
                unfold luawrap_pop lua_pop at hp
                rw [if_pos hcond] at hp
                cases hp
                show ((L.stack.drop ((n : Int)).toNat).length : Int) =
                  (L.stack.length : Int) - (n : Int)
                rw [List.length_drop]
                omega
              rw [List.map_cons, List.sum_cons]
              show (L2.depth : Int) =
                (L.depth : Int) + (-(n : Int) + (ops.map declaredDelta).sum)
              omega

/-- C7 witness: three pushes followed by Pop(3) run to completion and return
the depth to its baseline (the declared deltas sum to zero). -/
theorem stack_balance_witness :
    ((mkState [LuaValue.number 7]).depth : Int) =
      ((mkState [LuaValue.number 7]).depth : Int) +
        (([StackOp.push LuaValue.nil, StackOp.push (LuaValue.number 1),
           StackOp.push (LuaValue.boolean true), StackOp.pop 3].map
            declaredDelta).sum) :=
  stack_balance
    [StackOp.push LuaValue.nil, StackOp.push (LuaValue.number 1),
     StackOp.push (LuaValue.boolean true), StackOp.pop 3]
    (mkState [LuaValue.number 7]) (mkState [LuaValue.number 7]) rfl

/-- C8: IsCallable (luawrap_isfunction) inspects a slot without mutating the
stack (it is a pure read returning only a boolean): it returns true on a
slot holding a function value — in particular on the top slot immediately
after the compiled chunk of a successful Load is pushed — and false on a
slot holding a pushed number. -/
theorem isfunction_spec (L : LuaState) (idx : Int) :
    (∀ fid, stackAt L idx = some (.function fid) →
      luawrap_isfunction L idx = true) ∧
    (∀ x, stackAt L idx = some (.number x) →
      luawrap_isfunction L idx = false) ∧
    (∀ fid, luawrap_isfunction (pushArgument L (.function fid)) (-1) = true) := by
  refine ⟨?_, ?_, ?_⟩
  · intro fid h
    unfold luawrap_isfunction lua_isfunction
    rw [h]
  · intro x h
    unfold luawrap_isfunction lua_isfunction
    rw [h]
  · intro fid
    unfold luawrap_isfunction lua_isfunction
    rw [stackAt_top]

/-- C8 witness: on a stack holding a function at index 1 and a number at
index 2, IsCallable answers true and false respectively, and it answers
true at the top index right after a chunk value is pushed. -/
theorem isfunction_spec_witness :
    luawrap_isfunction (mkState [.number 9, .function 0]) 1 = true ∧
    luawrap_isfunction (mkState [.number 9, .function 0]) 2 = false ∧
    luawrap_isfunction
      (pushArgument (mkState [.number 9, .function 0]) (.function 5)) (-1) =
      true :=
  ⟨(isfunction_spec (mkState [.number 9, .function 0]) 1).1 0 (by decide),
   (isfunction_spec (mkState [.number 9, .function 0]) 2).2.1 9 (by decide),
   (isfunction_spec (mkState [.number 9, .function 0]) (-1)).2.2 5⟩

/-- C9: Pop (luawrap_pop) with n = 0 is a no-op: it succeeds and returns the
state unchanged, contents and depth included. -/
theorem pop_zero_noop (L : LuaState) : luawrap_pop L 0 = some L := by
  obtain ⟨stk, fs⟩ := L
  unfold luawrap_pop lua_pop
  rw [if_pos ⟨le_refl 0, by simp [LuaState.depth]⟩]
  simp

/-- C10: each of the five wrapper functions translated from the source is an
exact pass-through: on every interpreter state and argument tuple it returns
exactly what the corresponding engine primitive returns, with the arguments
forwarded unchanged and no further effect. -/
theorem luawrap_passthrough :
    (∀ L n, luawrap_pop L n = lua_pop L n) ∧
    (∀ L nargs nresults errfunc,
      luawrap_pcall L nargs nresults errfunc = lua_pcall L nargs nresults errfunc) ∧
    (∀ L idx, luawrap_isfunction L idx = lua_isfunction L idx) ∧
    (∀ L idx, luawrap_tonumber L idx = lua_tonumber L idx) ∧
    (∀ L idx, luawrap_tostring L idx = lua_tostring L idx) :=
  ⟨fun _ _ => rfl, fun _ _ _ _ => rfl, fun _ _ => rfl, fun _ _ => rfl,
   fun _ _ => rfl⟩
